import Mathlib

/-!
Verification of the generation-and-rendering pipeline of the tool-grounded
article generator, plus its frontend guards.

The backend service code (structured response parser, SEO metadata
generator, regeneration, HTML renderer) is modelled from the specification;
the frontend handlers are translated from the TypeScript sources
(`ArticleForm.tsx`, `lib/api.ts`, `dashboard/page.tsx`).

Raw text is modelled as `List Char`; all definitions are executable.
-/

namespace ArticleGen

/-- Whitespace test used for trimming raw text. -/
def isWsChar (c : Char) : Bool := c = ' ' || c = '\n' || c = '\t' || c = '\r'

/-- Drop leading whitespace. -/
def trimLeft (cs : List Char) : List Char := cs.dropWhile isWsChar

/-- Drop trailing whitespace. -/
def trimRight (cs : List Char) : List Char := (cs.reverse.dropWhile isWsChar).reverse

/-- Drop leading and trailing whitespace (the model of `String.trim`). -/
def trimChars (cs : List Char) : List Char := trimRight (trimLeft cs)

/-- The opening curly brace character. -/
def openBrace : Char := Char.ofNat 123

/-- The closing curly brace character. -/
def closeBrace : Char := Char.ofNat 125

/-! ## Data model (spec section 3) -/

/-- A cited source attached to an Article. -/
structure Source where
  title : List Char
  url : List Char
  description : List Char
deriving DecidableEq

/-- One section of an Article: heading, markdown-lite body, optional subpoints. -/
structure ArticleSection where
  heading : List Char
  body : List Char
  subpoints : List (List Char)
deriving DecidableEq

/-- The canonical structured content unit. -/
structure Article where
  title : List Char
  sections : List ArticleSection
  sources : List Source
  query : List Char
  referenceUrl : Option (List Char)
deriving DecidableEq

/-- Article invariants: non-empty title and at least one section. -/
def articleInvariant (a : Article) : Bool :=
  decide (a.title ≠ []) && decide (a.sections ≠ [])

/-- Open Graph block of the SEO metadata. -/
structure OpenGraph where
  title : List Char
  description : List Char
  type : List Char
deriving DecidableEq

/-- Twitter Card block of the SEO metadata. -/
structure TwitterCard where
  title : List Char
  description : List Char
  cardType : List Char
deriving DecidableEq

/-- Derived, never hand-authored SEO metadata for an Article. -/
structure SEOMetadata where
  title : List Char
  description : List Char
  keywords : List (List Char)
  openGraph : OpenGraph
  twitterCard : TwitterCard
deriving DecidableEq

/-- SEOMetadata invariant: title and description are non-empty. -/
def seoValid (m : SEOMetadata) : Bool :=
  decide (m.title ≠ []) && decide (m.description ≠ [])

/-! ## JSON values and a fuelled structural parser

Modelled from the spec: the Structured Response Parser performs a
"direct structural parse of the remaining text as the Article shape"
(spec section 4.3); the backend `llm_service.py` is not part of the
sources, so the structural parse is realised here as a small executable
JSON reader specialised to the shapes the spec names. -/

/-- A parsed JSON value.  Numbers are kept as raw character spans because
no field of the Article or SEOMetadata shape is numeric. -/
inductive JsonVal where
  | jnull : JsonVal
  | jbool : Bool → JsonVal
  | jnum : List Char → JsonVal
  | jstr : List Char → JsonVal
  | jarr : List JsonVal → JsonVal
  | jobj : List (List Char × JsonVal) → JsonVal

/-- Translate a JSON string escape character. -/
def unescapeChar (e : Char) : Char :=
  if e = 'n' then '\n' else if e = 't' then '\t' else if e = 'r' then '\r' else e

/-- Read a JSON string literal body (the opening quote already consumed);
returns the decoded content and the rest after the closing quote. -/
def parseStringLit : List Char → Option (List Char × List Char)
  | [] => none
  | c :: rest =>
    if c = '\"' then some ([], rest)
    else if c = '\\' then
      match rest with
      | [] => none
      | e :: rest2 =>
        match parseStringLit rest2 with
        | some (s, r) => some (unescapeChar e :: s, r)
        | none => none
    else
      match parseStringLit rest with
      | some (s, r) => some (c :: s, r)
      | none => none

/-- Characters that may occur in a JSON number token. -/
def isNumChar (c : Char) : Bool :=
  c.isDigit || c = '-' || c = '+' || c = '.' || c = 'e' || c = 'E'

/-- Mode of the fuelled JSON reader: a value, the members of an object,
or the elements of an array. -/
inductive PMode where
  | val : PMode
  | objRest : List (List Char × JsonVal) → PMode
  | arrRest : List JsonVal → PMode

/-- Fuelled recursive-descent JSON reader. -/
def parseStep : Nat → PMode → List Char → Option (JsonVal × List Char)
  | 0, _, _ => none
  | Nat.succ fuel, PMode.val, cs =>
    match trimLeft cs with
    | [] => none
    | c :: rest =>
      if c = openBrace then
        match trimLeft rest with
        | [] => none
        | d :: r2 =>
          if d = closeBrace then some (JsonVal.jobj [], r2)
          else parseStep fuel (PMode.objRest []) (d :: r2)
      else if c = '\"' then
        match parseStringLit rest with
        | some (s, r) => some (JsonVal.jstr s, r)
        | none => none
      else if c = '[' then
        match trimLeft rest with
        | [] => none
        | d :: r2 =>
          if d = ']' then some (JsonVal.jarr [], r2)
          else parseStep fuel (PMode.arrRest []) (d :: r2)
      else if c = 't' then
        match rest with
        | 'r' :: 'u' :: 'e' :: r2 => some (JsonVal.jbool true, r2)
        | _ => none
      else if c = 'f' then
        match rest with
        | 'a' :: 'l' :: 's' :: 'e' :: r2 => some (JsonVal.jbool false, r2)
        | _ => none
      else if c = 'n' then
        match rest with
        | 'u' :: 'l' :: 'l' :: r2 => some (JsonVal.jnull, r2)
        | _ => none
      else if c = '-' || c.isDigit then
        some (JsonVal.jnum ((c :: rest).takeWhile isNumChar),
              (c :: rest).dropWhile isNumChar)
      else none
  | Nat.succ fuel, PMode.objRest acc, cs =>
    match trimLeft cs with
    | c :: rest =>
      if c = '\"' then
        match parseStringLit rest with
        | some (k, r2) =>
          match trimLeft r2 with
          | ':' :: r3 =>
            match parseStep fuel PMode.val r3 with
            | some (v, r4) =>
              match trimLeft r4 with
              | ',' :: r5 => parseStep fuel (PMode.objRest ((k, v) :: acc)) r5
              | d :: r5 =>
                if d = closeBrace then some (JsonVal.jobj ((k, v) :: acc).reverse, r5)
                else none
              | [] => none
            | none => none
          | _ => none
        | none => none
      else none
    | [] => none
  | Nat.succ fuel, PMode.arrRest acc, cs =>
    match parseStep fuel PMode.val cs with
    | some (v, r) =>
      match trimLeft r with
      | ',' :: r2 => parseStep fuel (PMode.arrRest (v :: acc)) r2
      | ']' :: r2 => some (JsonVal.jarr (v :: acc).reverse, r2)
      | _ => none
    | none => none

/-- Parse a complete text as a single JSON value (no trailing garbage). -/
def parseJsonText (cs : List Char) : Option JsonVal :=
  match parseStep (2 * cs.length + 2) PMode.val cs with
  | some (v, rest) => if trimLeft rest = [] then some v else none
  | none => none

/-- Look up a key in a parsed JSON object. -/
def jLookup : List (List Char × JsonVal) → List Char → Option JsonVal
  | [], _ => none
  | (k, v) :: rest, key => if k = key then some v else jLookup rest key

/-- Extract a JSON string. -/
def asStr : JsonVal → Option (List Char)
  | JsonVal.jstr s => some s
  | _ => none

/-- Extract a JSON array. -/
def asArr : JsonVal → Option (List JsonVal)
  | JsonVal.jarr vs => some vs
  | _ => none

/-- Decode one source entry; absent fields default to the empty string. -/
def decodeSource (v : JsonVal) : Option Source :=
  match v with
  | JsonVal.jobj fs =>
    some { title := ((jLookup fs "title".data).bind asStr).getD []
         , url := ((jLookup fs "url".data).bind asStr).getD []
         , description := ((jLookup fs "description".data).bind asStr).getD [] }
  | _ => none

/-- Decode one section: heading and body are required strings, subpoints
are optional (absent means empty). -/
def decodeSection (v : JsonVal) : Option ArticleSection :=
  match v with
  | JsonVal.jobj fs => do
    let h ← (jLookup fs "heading".data).bind asStr
    let b ← (jLookup fs "body".data).bind asStr
    let sps ←
      match jLookup fs "subpoints".data with
      | some sv => (asArr sv).bind (fun vs => vs.mapM asStr)
      | none => some []
    some { heading := h, body := b, subpoints := sps }
  | _ => none

/-- Decode the Article shape (spec section 3): title and sections required,
sources optional, query and referenceUrl carried through when present. -/
def decodeArticle (v : JsonVal) : Option Article :=
  match v with
  | JsonVal.jobj fs => do
    let t ← (jLookup fs "title".data).bind asStr
    let secsJ ← (jLookup fs "sections".data).bind asArr
    let secs ← secsJ.mapM decodeSection
    let srcs ←
      match jLookup fs "sources".data with
      | some sv => (asArr sv).bind (fun vs => vs.mapM decodeSource)
      | none => some []
    some { title := t, sections := secs, sources := srcs
         , query := ((jLookup fs "query".data).bind asStr).getD []
         , referenceUrl := (jLookup fs "referenceUrl".data).bind asStr }
  | _ => none

/-- Decode the SEOMetadata shape: title and description required; keywords,
openGraph and twitterCard optional with the mirrors the spec describes. -/
def decodeSEO (v : JsonVal) : Option SEOMetadata :=
  match v with
  | JsonVal.jobj fs => do
    let t ← (jLookup fs "title".data).bind asStr
    let d ← (jLookup fs "description".data).bind asStr
    let kws :=
      match (jLookup fs "keywords".data).bind asArr with
      | some vs => vs.filterMap asStr
      | none => []
    let og :=
      match jLookup fs "openGraph".data with
      | some (JsonVal.jobj gs) =>
        { title := ((jLookup gs "title".data).bind asStr).getD t
        , description := ((jLookup gs "description".data).bind asStr).getD d
        , type := ((jLookup gs "type".data).bind asStr).getD "article".data
        : OpenGraph }
      | _ => { title := t, description := d, type := "article".data }
    let tw :=
      match jLookup fs "twitterCard".data with
      | some (JsonVal.jobj ts) =>
        { title := ((jLookup ts "title".data).bind asStr).getD t
        , description := ((jLookup ts "description".data).bind asStr).getD d
        , cardType := ((jLookup ts "cardType".data).bind asStr).getD "summary".data
        : TwitterCard }
      | _ => { title := t, description := d, cardType := "summary".data }
    some { title := t, description := d, keywords := kws
         , openGraph := og, twitterCard := tw }
  | _ => none

/-- Parse a text directly as the Article shape. -/
def parseArticle (cs : List Char) : Option Article :=
  (parseJsonText cs).bind decodeArticle

/-! ## Structured Response Parser (spec section 4.3)

Modelled from the spec: `llm_service.py` is not among the sources, so the
recovery pipeline follows the spec's algorithm: (1) strip wrapping code
fences, (2) direct structural parse accepted only with the Article
invariants, (3) first balanced curly-brace span recovery, (4) typed parse
error naming the failure stage. -/

/-- Remove a trailing code-fence marker, then trim. -/
def stripFenceTail (cs : List Char) : List Char :=
  if cs.reverse.take 3 = "```".data then trimChars (cs.reverse.drop 3).reverse
  else cs

/-- Strip wrapping code-fence markers (```json ... ``` or ``` ... ```)
around the payload; text without a leading fence is returned unchanged. -/
def stripFences (cs : List Char) : List Char :=
  if (trimChars cs).take 7 = "```json".data then
    stripFenceTail (trimChars ((trimChars cs).drop 7))
  else if (trimChars cs).take 3 = "```".data then
    stripFenceTail (trimChars ((trimChars cs).drop 3))
  else cs

/-- Scan for the closing brace matching the first opening one;
`depth` counts currently open braces, `acc` holds the reversed span. -/
def braceScan : Nat → List Char → List Char → Option (List Char)
  | _, _, [] => none
  | depth, acc, c :: rest =>
    if c = openBrace then braceScan (depth + 1) (c :: acc) rest
    else if c = closeBrace then
      if depth = 1 then some (c :: acc).reverse
      else braceScan (depth - 1) (c :: acc) rest
    else braceScan depth (c :: acc) rest

/-- The first balanced curly-brace span of the text, if any. -/
def firstBraceSpan (cs : List Char) : Option (List Char) :=
  braceScan 0 [] (cs.dropWhile (fun c => !(c = openBrace)))

/-- Typed parse error naming the failure stage (spec section 4.3 step 4). -/
inductive ParseError where
  | noJsonObject : ParseError
  | recoveryFailed : ParseError
deriving DecidableEq

/-- Structural parse accepted only when the Article invariants hold
(spec section 4.3 step 2). -/
def tryStructural (cs : List Char) : Option Article :=
  match parseArticle cs with
  | some a => if articleInvariant a then some a else none
  | none => none

/-- The Structured Response Parser: recover an Article value from raw
text or fail with a typed parse error; no placeholder is fabricated. -/
def parseStructuredResponse (cs : List Char) : Except ParseError Article :=
  match tryStructural (stripFences cs) with
  | some a => Except.ok a
  | none =>
    match firstBraceSpan (stripFences cs) with
    | none => Except.error ParseError.noJsonObject
    | some span =>
      match tryStructural span with
      | some a => Except.ok a
      | none => Except.error ParseError.recoveryFailed

/-! ## Generation Orchestrator (spec sections 4.2, 6, 7)

Modelled from the spec: the external Generative Service Client is
represented by the response it produces for the one request the
orchestrator makes (at-most-one generation call, at-most-one parse
attempt). -/

/-- Outcome of the single external generative-service call. -/
inductive ServiceResult where
  | ok : List Char → List Source → ServiceResult
  | networkError : ServiceResult
  | timeout : ServiceResult

/-- Typed failures surfaced by the orchestrator (spec section 7). -/
inductive GenError where
  | serviceUnavailable : GenError
  | serviceTimeout : GenError
  | parseFailure : ParseError → GenError
  | validationFailure : GenError
deriving DecidableEq

/-- Merge service citations into the Article's sources, deduplicated by
URL (spec section 4.3, last paragraph). -/
def mergeSources (srcs : List Source) : List Source → List Source
  | [] => srcs
  | c :: rest =>
    if srcs.any (fun s => s.url = c.url) then mergeSources srcs rest
    else mergeSources (srcs ++ [c]) rest

/-- Fresh generation: prompt → service → parser; the originating query and
reference URL are carried through into the Article (spec section 3). -/
def generate_article (svc : ServiceResult) (query : List Char)
    (referenceUrl : Option (List Char)) : Except GenError Article :=
  match svc with
  | ServiceResult.networkError => Except.error GenError.serviceUnavailable
  | ServiceResult.timeout => Except.error GenError.serviceTimeout
  | ServiceResult.ok text cites =>
    match parseStructuredResponse text with
    | Except.error e => Except.error (GenError.parseFailure e)
    | Except.ok a =>
      Except.ok { a with sources := mergeSources a.sources cites,
                         query := query, referenceUrl := referenceUrl }

/-- The headings of an Article, in section order. -/
def headings (a : Article) : List (List Char) := a.sections.map ArticleSection.heading

/-- Two Articles have the same set of section headings. -/
def sameHeadingSet (a b : Article) : Bool :=
  (headings a).all (fun h => (headings b).contains h) &&
  (headings b).all (fun h => (headings a).contains h)

/-- Shape stability check for regeneration: same section count and same
heading set (spec section 3 invariant). -/
def sameShape (orig new : Article) : Bool :=
  decide (orig.sections.length = new.sections.length) && sameHeadingSet orig new

/-- Regeneration: same orchestration as generation, re-entered with the
existing Article and a modification instruction.  Modelled from the spec:
`structuralChange` abstracts whether the instruction explicitly requests a
structural change; when it does not, a response that does not preserve the
original shape violates the section 3 invariant and is rejected as a
validation failure rather than returned. -/
def regenerate_article (svc : ServiceResult) (orig : Article)
    (instruction : List Char) (structuralChange : Bool) : Except GenError Article :=
  match svc with
  | ServiceResult.networkError => Except.error GenError.serviceUnavailable
  | ServiceResult.timeout => Except.error GenError.serviceTimeout
  | ServiceResult.ok text cites =>
    match parseStructuredResponse text with
    | Except.error e => Except.error (GenError.parseFailure e)
    | Except.ok a =>
      if structuralChange || sameShape orig a then
        Except.ok { a with sources := mergeSources a.sources cites,
                           query := orig.query, referenceUrl := orig.referenceUrl }
      else Except.error GenError.validationFailure

/-! ## SEO Metadata Generator (spec section 4.4)

Modelled from the spec: `generate_seo_metadata` is not among the sources.
The generative path reuses the parser pattern targeting the SEOMetadata
shape; on any failure of that path the deterministic fallback is used, so
the component never fails outward. -/

/-- Truncate to at most `n` characters at a word boundary; when no word
boundary fits, the plain prefix is used so that non-empty input stays
non-empty. -/
def truncateAtWord (n : Nat) (cs : List Char) : List Char :=
  if cs.length ≤ n then cs
  else
    let t := cs.take n
    let w := trimRight ((t.reverse.dropWhile (fun c => !(c = ' '))).reverse)
    if w = [] then t else w

/-- Strip markdown-lite markup for plain-text metadata derivation. -/
def stripMarkup (cs : List Char) : List Char :=
  (cs.map (fun c => if c = '\n' then ' ' else c)).filter
    (fun c => !(c = '*' || c = '#'))

/-- The body of the first section (empty when impossible). -/
def firstBody (a : Article) : List Char :=
  match a.sections with
  | [] => []
  | s :: _ => s.body

/-- The description candidate of the fallback: first section body stripped
of markup, truncated to 160 characters at a word boundary. -/
def descCandidate (a : Article) : List Char :=
  truncateAtWord 160 (trimChars (stripMarkup (firstBody a)))

/-- Split a text into space-separated words. -/
def splitWords (cs : List Char) : List (List Char) :=
  (cs.splitOn ' ').filter (fun w => !w.isEmpty)

/-- Keep the first occurrence of each element. -/
def dedupKeepOrder : List (List Char) → List (List Char) → List (List Char)
  | _, [] => []
  | seen, w :: rest =>
    if seen.contains w then dedupKeepOrder seen rest
    else w :: dedupKeepOrder (w :: seen) rest

/-- Fallback keywords: first distinct capitalized tokens of the title and
first section (simple heuristic, spec section 4.4). -/
def fallbackKeywords (a : Article) : List (List Char) :=
  (dedupKeepOrder []
    ((splitWords (a.title ++ ' ' :: stripMarkup (firstBody a))).filter
      (fun w => match w with | c :: _ => c.isUpper | [] => false))).take 5

/-- Deterministic SEO fallback (spec section 4.4): title from Article.title
truncated to 60 characters, description from the first section's leading
text truncated to 160 characters; when the first section strips to nothing
the description is still populated from the title, honouring the
"always non-empty" invariant of spec section 3. -/
def seoFallback (a : Article) : SEOMetadata :=
  let t := truncateAtWord 60 a.title
  let d0 := descCandidate a
  let d := if d0 = [] then t else d0
  { title := t, description := d, keywords := fallbackKeywords a
  , openGraph := { title := t, description := d, type := "article".data }
  , twitterCard := { title := t, description := d, cardType := "summary".data } }

/-- Parse a generative response as the SEOMetadata shape, with the same
fence-stripping and brace-span recovery as the Article parser. -/
def parseSEOText (cs : List Char) : Option SEOMetadata :=
  let t := stripFences cs
  match (parseJsonText t).bind decodeSEO with
  | some m => some m
  | none => (firstBraceSpan t).bind (fun sp => (parseJsonText sp).bind decodeSEO)

/-- SEO Metadata Generator: generative derivation with deterministic local
fallback; never fails outward (spec sections 4.4 and 7). -/
def generate_seo_metadata (svc : ServiceResult) (a : Article) : SEOMetadata :=
  match svc with
  | ServiceResult.ok text _ =>
    match parseSEOText text with
    | some m => if seoValid m then m else seoFallback a
    | none => seoFallback a
  | _ => seoFallback a

/-! ## HTML Renderer (spec section 4.5)

Modelled from the spec and the code guide for `article_service.py`:
a pure function from (Article, SEOMetadata) to a single self-contained
HTML document, with a markdown-lite transform (`**text**` → strong markup,
bullet lines → a list block, consecutive plain lines → a paragraph block;
everything else passes through as literal text). -/

/-- Split a text on double-asterisk markers. -/
def splitBB : List Char → List (List Char)
  | [] => [[]]
  | [c] => [[c]]
  | c :: d :: rest =>
    if c = '*' ∧ d = '*' then [] :: splitBB rest
    else
      match splitBB (d :: rest) with
      | p :: ps => (c :: p) :: ps
      | [] => [[c]]

/-- Reassemble the pieces, wrapping each closed double-asterisk pair in
strong markup; a trailing unclosed marker is emitted literally. -/
def joinBold : List (List Char) → List Char
  | [] => []
  | [p] => p
  | [p, q] => p ++ '*' :: '*' :: q
  | p :: q :: r :: rest =>
    p ++ "<strong>".data ++ q ++ "</strong>".data ++ joinBold (r :: rest)

/-- The inline markdown-lite transform: `**text**` becomes strong markup;
unsupported syntax passes through as literal text. -/
def boldTr (cs : List Char) : List Char := joinBold (splitBB cs)

/-- Split a text into its lines. -/
def splitLines : List Char → List (List Char)
  | [] => [[]]
  | c :: rest =>
    if c = '\n' then [] :: splitLines rest
    else
      match splitLines rest with
      | p :: ps => (c :: p) :: ps
      | [] => [[c]]

/-- A line beginning with a bullet marker (`* ` or `- `). -/
def isBulletLine : List Char → Bool
  | [] => false
  | [_] => false
  | c :: d :: _ => (c = '*' || c = '-') && d = ' '

/-- Join pieces with a separator. -/
def joinSep (sep : List Char) : List (List Char) → List Char
  | [] => []
  | [l] => l
  | l :: l2 :: ls => l ++ sep ++ joinSep sep (l2 :: ls)

/-- Group lines into list blocks and paragraph blocks: a run of bullet
lines becomes one list block, a run of non-empty non-bullet lines becomes
one paragraph block; blank lines separate blocks. -/
def renderBlocks : Nat → List (List Char) → List Char
  | 0, _ => []
  | _ + 1, [] => []
  | fuel + 1, l :: ls =>
    if l = [] then renderBlocks fuel ls
    else if isBulletLine l then
      "<ul>".data ++
        ((l :: ls.takeWhile isBulletLine).map
          (fun b => "<li>".data ++ boldTr (b.drop 2) ++ "</li>".data)).flatten ++
      "</ul>".data ++ renderBlocks fuel (ls.dropWhile isBulletLine)
    else
      "<p>".data ++
        joinSep [' ']
          ((l :: ls.takeWhile (fun x => !isBulletLine x && !x.isEmpty)).map boldTr) ++
      "</p>".data ++
      renderBlocks fuel (ls.dropWhile (fun x => !isBulletLine x && !x.isEmpty))

/-- Markdown-lite to HTML conversion (`markdown_to_html`). -/
def markdown_to_html (cs : List Char) : List Char :=
  renderBlocks (splitLines cs).length (splitLines cs)

/-- A meta tag of the document head. -/
def metaTag (nm content : List Char) : List Char :=
  "<meta name=\"".data ++ nm ++ "\" content=\"".data ++ content ++ "\">".data

/-- A meta property tag (Open Graph). -/
def metaProp (nm content : List Char) : List Char :=
  "<meta property=\"".data ++ nm ++ "\" content=\"".data ++ content ++ "\">".data

/-- Render the subpoints of a section as a list block (empty when none). -/
def renderSubpoints (sps : List (List Char)) : List Char :=
  match sps with
  | [] => []
  | _ =>
    "<ul>".data ++
      (sps.map (fun sp => "<li>".data ++ boldTr sp ++ "</li>".data)).flatten ++
    "</ul>".data

/-- Render one section: heading, markdown-lite body, subpoints. -/
def renderSection (s : ArticleSection) : List Char :=
  "<h2>".data ++ s.heading ++ "</h2>".data ++
  markdown_to_html s.body ++ renderSubpoints s.subpoints

/-- Render the sources block; produced only when `sources` is non-empty. -/
def renderSources (srcs : List Source) : List Char :=
  match srcs with
  | [] => []
  | _ =>
    "<h2>Sources</h2><ul>".data ++
      (srcs.map (fun s =>
        "<li><a href=\"".data ++ s.url ++ "\">".data ++ s.title ++
        "</a> - ".data ++ s.description ++ "</li>".data)).flatten ++
    "</ul>".data

/-- The inline style block of the document head. -/
def styleBlock : List Char :=
  "<style>body\x7bfont-family:sans-serif;max-width:800px;margin:0 auto\x7d</style>".data

/-- Create the complete self-contained HTML document from an Article and
its SEOMetadata (`create_html_document`): head with the metadata as meta
tags and inline styling, body with title, sections in order, and a
sources block only when sources exist. -/
def create_html_document (a : Article) (m : SEOMetadata) : List Char :=
  "<!DOCTYPE html><html><head><meta charset=\"utf-8\"><title>".data ++ m.title ++
  "</title>".data ++
  metaTag "description".data m.description ++
  metaTag "keywords".data (joinSep ", ".data m.keywords) ++
  metaProp "og:title".data m.openGraph.title ++
  metaProp "og:description".data m.openGraph.description ++
  metaProp "og:type".data m.openGraph.type ++
  metaTag "twitter:card".data m.twitterCard.cardType ++
  metaTag "twitter:title".data m.twitterCard.title ++
  metaTag "twitter:description".data m.twitterCard.description ++
  styleBlock ++
  "</head><body><h1>".data ++ a.title ++ "</h1>".data ++
  (a.sections.map renderSection).flatten ++
  renderSources a.sources ++
  "</body></html>".data

/-! ## Frontend handlers (translated from the TypeScript sources) -/

/-- `ArticleForm.handleSubmit` (src/frontend/components/ArticleForm.tsx):
calls `onSubmit(query.trim(), url.trim() || undefined)` only when the
trimmed query is truthy; returns the submitted payload, or `none` when no
call is made. -/
def handleSubmit (query url : List Char) : Option (List Char × Option (List Char)) :=
  if trimChars query ≠ [] then
    some (trimChars query, if trimChars url = [] then none else some (trimChars url))
  else none

/-- The submit button's disabled condition
(`loading || !query.trim()`, src/frontend/components/ArticleForm.tsx). -/
def submitDisabled (loading : Bool) (query : List Char) : Bool :=
  loading || decide (trimChars query = [])

/-- The browser-side state the API client's response interceptor touches:
the stored auth token and the window location. -/
structure ClientState where
  authToken : Option (List Char)
  locationHref : List Char
deriving DecidableEq

/-- The interceptor's outcome: the promise is rejected with the original
error (identified here by its optional HTTP status). -/
inductive InterceptorOutcome where
  | rejectedWith : Option Nat → InterceptorOutcome
deriving DecidableEq

/-- The response-error interceptor of `apiClient` (src/unnamed/part_002,
frontend/lib/api.ts): on status 401 it removes the stored auth token and
navigates to '/', and in every case it rejects with the original error. -/
def onResponseError (st : ClientState) (status : Option Nat) :
    ClientState × InterceptorOutcome :=
  if status = some 401 then
    ({ authToken := none, locationHref := ['/'] }, InterceptorOutcome.rejectedWith status)
  else (st, InterceptorOutcome.rejectedWith status)

/-- The dashboard page state touched by `handleRegenerate`
(src/frontend/app/dashboard/page.tsx). -/
structure DashboardState where
  articleData : Option JsonVal
  seoMetadata : Option JsonVal
  htmlContent : List Char
  error : List Char
  regeneratePrompt : List Char
  regenerating : Bool

/-- `handleRegenerate` up to its first await: returns immediately when no
article is loaded or the prompt is blank after trimming; otherwise it
sets the regenerating flag, clears the error, and issues the request
(second component `true`). -/
def handleRegenerate (st : DashboardState) : DashboardState × Bool :=
  match st.articleData with
  | none => (st, false)
  | some _ =>
    if trimChars st.regeneratePrompt = [] then (st, false)
    else ({ st with regenerating := true, error := [] }, true)

/-! ## Concrete demonstration values used by the witnesses -/

/-- A serialized Article as the generative service would return it. -/
def demoJson : List Char :=
  "\x7b\"title\":\"AI Today\",\"sections\":[\x7b\"heading\":\"Intro\",\"body\":\"Hello world\",\"subpoints\":[]\x7d],\"sources\":[]\x7d".data

/-- The Article value `demoJson` denotes. -/
def demoArticle : Article :=
  { title := "AI Today".data
  , sections := [{ heading := "Intro".data, body := "Hello world".data, subpoints := [] }]
  , sources := []
  , query := []
  , referenceUrl := none }

/-- `demoJson` embedded in surrounding prose. -/
def demoProse : List Char :=
  "Here is your article:\n".data ++ demoJson ++ "\nHope this helps!".data

/-- SEO metadata for the demonstration Article. -/
def demoSEO : SEOMetadata := seoFallback demoArticle

/-- A dashboard state with no loaded article. -/
def demoDashEmpty : DashboardState :=
  { articleData := none, seoMetadata := none, htmlContent := []
  , error := [], regeneratePrompt := "fix".data, regenerating := false }

/-- A dashboard state with an article loaded but a blank prompt. -/
def demoDashBlankPrompt : DashboardState :=
  { articleData := some (JsonVal.jobj []), seoMetadata := none
  , htmlContent := "<p>x</p>".data, error := [], regeneratePrompt := "   ".data
  , regenerating := false }

/-! ## Claim C6: renderer determinism -/

/-- C6: the HTML Renderer is deterministic — on identical
(Article, SEOMetadata) inputs two calls of `create_html_document` produce
byte-for-byte identical HTML strings; the renderer is a pure function of
its two arguments, with no timestamp, randomness, or environment input. -/
theorem c6_renderer_determinism (a1 a2 : Article) (m1 m2 : SEOMetadata)
    (ha : a1 = a2) (hm : m1 = m2) :
    create_html_document a1 m1 = create_html_document a2 m2 := by
  rw [ha, hm]

/-- Witness for C6 at a concrete Article and SEOMetadata. -/
theorem c6_renderer_determinism_witness :
    create_html_document demoArticle demoSEO = create_html_document demoArticle demoSEO :=
  c6_renderer_determinism demoArticle demoArticle demoSEO demoSEO rfl rfl

/-! ## Claim C8: empty query rejected upstream -/

/-- C8: the submit handler of the article form invokes `generate` only
when the trimmed query is non-empty: a whitespace-only query makes no
call (`handleSubmit` returns `none`) and leaves the submit button
disabled, and any call that is made carries the trimmed query. -/
theorem c8_empty_query_rejected (q u : List Char) (loading : Bool)
    (p : List Char × Option (List Char)) :
    (trimChars q = [] → handleSubmit q u = none ∧ submitDisabled loading q = true) ∧
    (handleSubmit q u = some p → trimChars q ≠ [] ∧ p.1 = trimChars q) := by
  constructor
  · intro h
    constructor
    · simp [handleSubmit, h]
    · simp [submitDisabled, h]
  · intro h
    by_cases hq : trimChars q = []
    · simp [handleSubmit, hq] at h
    · refine ⟨hq, ?_⟩
      simp [handleSubmit, hq] at h
      rw [← h]

/-- Witness for C8: a whitespace-only query is rejected with the button
disabled, and a padded query is submitted trimmed. -/
theorem c8_empty_query_rejected_witness :
    (handleSubmit "   ".data "hi".data = none ∧ submitDisabled false "   ".data = true) ∧
    (trimChars " ai ".data ≠ [] ∧
      (("ai".data, (none : Option (List Char))) : List Char × Option (List Char)).1 =
        trimChars " ai ".data) :=
  ⟨(c8_empty_query_rejected "   ".data "hi".data false ("ai".data, none)).1 (by decide),
   (c8_empty_query_rejected " ai ".data "".data false ("ai".data, none)).2 (by decide)⟩

/-! ## Claim C9: 401 interceptor -/

/-- C9: on an HTTP 401 response error the API client removes the stored
auth token and navigates to the login route '/', still rejecting with the
original error; on any other status the interceptor passes the error
through with the state unchanged. -/
theorem c9_auth_interceptor (st : ClientState) (status : Option Nat) :
    (status = some 401 →
      onResponseError st status =
        ({ authToken := none, locationHref := ['/'] },
         InterceptorOutcome.rejectedWith status)) ∧
    (status ≠ some 401 →
      onResponseError st status = (st, InterceptorOutcome.rejectedWith status)) := by
  constructor
  · intro h
    simp [onResponseError, h]
  · intro h
    simp [onResponseError, h]

/-- Witness for C9 at a concrete client state, for a 401 and a 500. -/
theorem c9_auth_interceptor_witness :
    onResponseError { authToken := some "tok".data, locationHref := "/dashboard".data }
        (some 401) =
      ({ authToken := none, locationHref := ['/'] },
       InterceptorOutcome.rejectedWith (some 401)) ∧
    onResponseError { authToken := some "tok".data, locationHref := "/dashboard".data }
        (some 500) =
      ({ authToken := some "tok".data, locationHref := "/dashboard".data },
       InterceptorOutcome.rejectedWith (some 500)) :=
  ⟨(c9_auth_interceptor _ (some 401)).1 rfl,
   (c9_auth_interceptor _ (some 500)).2 (by decide)⟩

/-! ## Claim C10: regenerate handler guard -/

/-- C10: the dashboard regenerate handler is a guarded no-op — with no
article loaded or a blank (after trimming) prompt it returns immediately
without issuing a request, leaving the whole dashboard state (article
data, SEO metadata, HTML content, error) unchanged. -/
theorem c10_regenerate_guard (st : DashboardState)
    (h : st.articleData = none ∨ trimChars st.regeneratePrompt = []) :
    handleRegenerate st = (st, false) := by
  rcases h with h | h
  · simp [handleRegenerate, h]
  · unfold handleRegenerate
    cases st.articleData with
    | none => rfl
    | some _ => simp [h]

/-- Witness for C10: the guard fires both with no article loaded and with
a blank prompt. -/
theorem c10_regenerate_guard_witness :
    handleRegenerate demoDashEmpty = (demoDashEmpty, false) ∧
    handleRegenerate demoDashBlankPrompt = (demoDashBlankPrompt, false) :=
  ⟨c10_regenerate_guard demoDashEmpty (Or.inl rfl),
   c10_regenerate_guard demoDashBlankPrompt (Or.inr (by decide))⟩

/-! ## Trimming and fence-stripping lemmas -/

theorem trimLeft_cons_not_ws (c : Char) (xs : List Char) (h : isWsChar c = false) :
    trimLeft (c :: xs) = c :: xs := by
  simp [trimLeft, List.dropWhile_cons, h]

theorem trimLeft_cons_ws (c : Char) (xs : List Char) (h : isWsChar c = true) :
    trimLeft (c :: xs) = trimLeft xs := by
  simp [trimLeft, List.dropWhile_cons, h]

theorem trimRight_snoc_not_ws (xs : List Char) (c : Char) (h : isWsChar c = false) :
    trimRight (xs ++ [c]) = xs ++ [c] := by
  simp [trimRight, List.reverse_append, List.dropWhile_cons, h]

/-- A text that starts with an opening brace and ends with a closing brace
is already trimmed. -/
theorem trimChars_brace (s m r : List Char)
    (hm : s = openBrace :: m) (hr : s.reverse = closeBrace :: r) :
    trimChars s = s := by
  have h1 : trimLeft s = s := by
    rw [hm]
    exact trimLeft_cons_not_ws _ _ (by decide)
  have h2 : trimRight s = s := by
    unfold trimRight
    rw [hr, List.dropWhile_cons]
    simp only [show isWsChar closeBrace = false from by decide]
    simp only [if_false, Bool.false_eq_true]
    rw [← hr, List.reverse_reverse]
  rw [trimChars, h1, h2]

theorem take7_brace_ne_json (m : List Char) :
    ¬ ((openBrace :: m).take 7 = "```json".data) := by
  intro h
  rw [List.take_succ_cons] at h
  have h1 := congrArg List.head? h
  simp only [List.head?_cons] at h1
  injection h1 with h2
  exact absurd h2 (by decide)

theorem take3_brace_ne_fence (m : List Char) :
    ¬ ((openBrace :: m).take 3 = "```".data) := by
  intro h
  rw [List.take_succ_cons] at h
  have h1 := congrArg List.head? h
  simp only [List.head?_cons] at h1
  injection h1 with h2
  exact absurd h2 (by decide)

/-- Fence stripping leaves a brace-delimited payload unchanged. -/
theorem stripFences_of_brace (s m r : List Char)
    (hm : s = openBrace :: m) (hr : s.reverse = closeBrace :: r) :
    stripFences s = s := by
  unfold stripFences
  rw [trimChars_brace s m r hm hr]
  conv_lhs => rw [hm]
  rw [if_neg (take7_brace_ne_json m), if_neg (take3_brace_ne_fence m)]
  rw [hm]

/-! ## Claim C3: parser idempotence -/

/-- C3: a raw text that is already a valid serialized Article — a bare
brace-delimited object with no code fences and no surrounding prose, whose
direct structural parse yields an invariant-satisfying Article — is
returned by the Structured Response Parser unchanged. -/
theorem c3_parser_idempotence (s m r : List Char) (a : Article)
    (hm : s = openBrace :: m) (hr : s.reverse = closeBrace :: r)
    (hp : parseArticle s = some a) (hinv : articleInvariant a = true) :
    parseStructuredResponse s = Except.ok a := by
  have hsf := stripFences_of_brace s m r hm hr
  simp [parseStructuredResponse, hsf, tryStructural, hp, hinv]

/-- Witness for C3 on a concrete serialized Article. -/
theorem c3_parser_idempotence_witness :
    parseStructuredResponse demoJson = Except.ok demoArticle :=
  c3_parser_idempotence demoJson demoJson.tail (demoJson.reverse.tail) demoArticle
    rfl rfl rfl rfl

/-! ## Fence-recovery lemmas for claim C2 -/

theorem trimLeft_payload (s m : List Char) (xs : List Char)
    (hm : s = openBrace :: m) : trimLeft (s ++ xs) = s ++ xs := by
  rw [hm, List.cons_append]
  exact trimLeft_cons_not_ws _ _ (by decide)

theorem trimRight_payload_snoc (s : List Char) :
    trimRight (s ++ "\n```".data) = s ++ "\n```".data := by
  rw [show "\n```".data = "\n``".data ++ [Char.ofNat 96] from by decide,
      ← List.append_assoc]
  exact trimRight_snoc_not_ws _ _ (by decide)

/-- Trimming the text after the opening fence marker yields the payload
followed by the closing marker. -/
theorem trim_drop_newline (s m r : List Char)
    (hm : s = openBrace :: m) (hr : s.reverse = closeBrace :: r) :
    trimChars ('\n' :: (s ++ "\n```".data)) = s ++ "\n```".data := by
  unfold trimChars
  rw [trimLeft_cons_ws _ _ (by decide), trimLeft_payload s m _ hm,
      trimRight_payload_snoc]

/-- Removing the closing fence marker and trimming recovers the payload. -/
theorem stripFenceTail_payload (s m r : List Char)
    (hm : s = openBrace :: m) (hr : s.reverse = closeBrace :: r) :
    stripFenceTail (s ++ "\n```".data) = s := by
  unfold stripFenceTail
  rw [List.reverse_append,
      show ("\n```".data).reverse = "```".data ++ ['\n'] from by decide,
      List.append_assoc,
      List.take_left' (by decide : ("```".data).length = 3),
      if_pos rfl,
      List.drop_left' (by decide : ("```".data).length = 3),
      List.reverse_append, List.reverse_reverse,
      show (['\n'] : List Char).reverse = ['\n'] from rfl]
  unfold trimChars
  rw [trimLeft_payload s m _ hm]
  unfold trimRight
  rw [List.reverse_append, show (['\n'] : List Char).reverse = ['\n'] from rfl,
      List.singleton_append, List.dropWhile_cons]
  simp only [show isWsChar '\n' = true from by decide, if_true]
  rw [hr, List.dropWhile_cons]
  simp only [show isWsChar closeBrace = false from by decide, Bool.false_eq_true,
    if_false]
  rw [← hr, List.reverse_reverse]

/-- The whole ```json-fenced text is already trimmed. -/
theorem trim_fenced_json (s : List Char) :
    trimChars ("```json\n".data ++ (s ++ "\n```".data)) =
      "```json\n".data ++ (s ++ "\n```".data) := by
  unfold trimChars
  rw [show "```json\n".data = Char.ofNat 96 :: "``json\n".data from by decide,
      List.cons_append, trimLeft_cons_not_ws _ _ (by decide), ← List.cons_append,
      show (Char.ofNat 96 :: "``json\n".data : List Char) = "```json\n".data
        from by decide]
  rw [show "\n```".data = "\n``".data ++ [Char.ofNat 96] from by decide,
      ← List.append_assoc, ← List.append_assoc]
  rw [trimRight_snoc_not_ws _ _ (by decide)]

/-- The whole bare-fenced text is already trimmed. -/
theorem trim_fenced_bare (s : List Char) :
    trimChars ("```\n".data ++ (s ++ "\n```".data)) =
      "```\n".data ++ (s ++ "\n```".data) := by
  unfold trimChars
  rw [show "```\n".data = Char.ofNat 96 :: "``\n".data from by decide,
      List.cons_append, trimLeft_cons_not_ws _ _ (by decide), ← List.cons_append,
      show (Char.ofNat 96 :: "``\n".data : List Char) = "```\n".data from by decide]
  rw [show "\n```".data = "\n``".data ++ [Char.ofNat 96] from by decide,
      ← List.append_assoc, ← List.append_assoc]
  rw [trimRight_snoc_not_ws _ _ (by decide)]

/-- Stripping a ```json fence recovers the brace-delimited payload. -/
theorem stripFences_fenced_json (s m r : List Char)
    (hm : s = openBrace :: m) (hr : s.reverse = closeBrace :: r) :
    stripFences ("```json\n".data ++ (s ++ "\n```".data)) = s := by
  unfold stripFences
  rw [trim_fenced_json s]
  rw [show "```json\n".data = "```json".data ++ ['\n'] from by decide,
      List.append_assoc,
      List.take_left' (by decide : ("```json".data).length = 7),
      if_pos rfl,
      List.drop_left' (by decide : ("```json".data).length = 7),
      List.singleton_append]
  rw [trim_drop_newline s m r hm hr, stripFenceTail_payload s m r hm hr]

/-- The first seven characters of a bare-fenced text are not ```json. -/
theorem take7_bare_ne_json (s : List Char) :
    ¬ (("```\n".data ++ (s ++ "\n```".data)).take 7 = "```json".data) := by
  intro h
  rw [show "```\n".data = "```".data ++ ['\n'] from by decide,
      List.append_assoc,
      show (7 : Nat) = ("```".data).length + 4 from by decide,
      List.take_append,
      show "```json".data = "```".data ++ "json".data from by decide] at h
  have h2 := List.append_cancel_left h
  rw [List.singleton_append, List.take_succ_cons] at h2
  have h3 := congrArg List.head? h2
  simp only [List.head?_cons] at h3
  injection h3 with h4
  exact absurd h4 (by decide)

/-- Stripping a bare fence recovers the brace-delimited payload. -/
theorem stripFences_fenced_bare (s m r : List Char)
    (hm : s = openBrace :: m) (hr : s.reverse = closeBrace :: r) :
    stripFences ("```\n".data ++ (s ++ "\n```".data)) = s := by
  unfold stripFences
  rw [trim_fenced_bare s]
  rw [if_neg (take7_bare_ne_json s)]
  rw [show "```\n".data = "```".data ++ ['\n'] from by decide,
      List.append_assoc,
      List.take_left' (by decide : ("```".data).length = 3),
      if_pos rfl,
      List.drop_left' (by decide : ("```".data).length = 3),
      List.singleton_append]
  rw [trim_drop_newline s m r hm hr, stripFenceTail_payload s m r hm hr]

/-! ## Claim C2: parser recovery equivalence -/

/-- C2: for a valid serialized Article (a brace-delimited object whose
structural parse yields an invariant-satisfying Article), the Structured
Response Parser returns the same Article whether the text is the bare
JSON, wrapped in ```json fences, wrapped in bare ``` fences, or embedded
in surrounding prose as the first balanced curly-brace span; fences and
prose are ignored. -/
theorem c2_parser_recovery (s m r : List Char) (a : Article) (t : List Char)
    (hm : s = openBrace :: m) (hr : s.reverse = closeBrace :: r)
    (hp : parseArticle s = some a) (hinv : articleInvariant a = true) :
    (parseStructuredResponse ("```json\n".data ++ (s ++ "\n```".data)) = Except.ok a ∧
     parseStructuredResponse ("```\n".data ++ (s ++ "\n```".data)) = Except.ok a ∧
     parseStructuredResponse s = Except.ok a) ∧
    (stripFences t = t → parseArticle t = none → firstBraceSpan t = some s →
      parseStructuredResponse t = Except.ok a) := by
  have key : ∀ u : List Char, stripFences u = s →
      parseStructuredResponse u = Except.ok a := by
    intro u hu
    simp [parseStructuredResponse, hu, tryStructural, hp, hinv]
  refine ⟨⟨?_, ?_, ?_⟩, ?_⟩
  · exact key _ (stripFences_fenced_json s m r hm hr)
  · exact key _ (stripFences_fenced_bare s m r hm hr)
  · exact key _ (stripFences_of_brace s m r hm hr)
  · intro hsf hdirect hspan
    simp [parseStructuredResponse, hsf, tryStructural, hdirect, hspan, hp, hinv]

set_option maxRecDepth 4000 in
/-- Witness for C2 on the concrete serialized Article, fenced and embedded
in prose. -/
theorem c2_parser_recovery_witness :
    (parseStructuredResponse ("```json\n".data ++ (demoJson ++ "\n```".data)) =
       Except.ok demoArticle ∧
     parseStructuredResponse ("```\n".data ++ (demoJson ++ "\n```".data)) =
       Except.ok demoArticle ∧
     parseStructuredResponse demoJson = Except.ok demoArticle) ∧
    parseStructuredResponse demoProse = Except.ok demoArticle :=
  ⟨(c2_parser_recovery demoJson demoJson.tail demoJson.reverse.tail demoArticle
      demoProse rfl rfl rfl rfl).1,
   (c2_parser_recovery demoJson demoJson.tail demoJson.reverse.tail demoArticle
      demoProse rfl rfl rfl rfl).2 (by decide) (by decide) (by decide)⟩

/-! ## Claim C1: generate returns invariant Articles or typed failures -/

theorem tryStructural_invariant (cs : List Char) (a : Article)
    (h : tryStructural cs = some a) : articleInvariant a = true := by
  unfold tryStructural at h
  cases hp : parseArticle cs with
  | none => rw [hp] at h; simp only [] at h; exact absurd h (by simp)
  | some x =>
    rw [hp] at h
    simp only [] at h
    cases hinv : articleInvariant x with
    | false => rw [hinv] at h; simp at h
    | true =>
      rw [hinv] at h
      simp only [if_true] at h
      injection h with h2
      rw [← h2]
      exact hinv

theorem psr_ok_invariant (cs : List Char) (a : Article)
    (h : parseStructuredResponse cs = Except.ok a) : articleInvariant a = true := by
  unfold parseStructuredResponse at h
  cases h1 : tryStructural (stripFences cs) with
  | some b =>
    rw [h1] at h
    simp only [] at h
    injection h with h2
    exact h2 ▸ tryStructural_invariant _ _ h1
  | none =>
    rw [h1] at h
    simp only [] at h
    cases h2 : firstBraceSpan (stripFences cs) with
    | none => rw [h2] at h; simp at h
    | some span =>
      rw [h2] at h
      simp only [] at h
      cases h3 : tryStructural span with
      | none => rw [h3] at h; simp at h
      | some b =>
        rw [h3] at h
        simp only [] at h
        injection h with h4
        exact h4 ▸ tryStructural_invariant _ _ h3

/-- C1: for every non-empty query, `generate_article` either returns an
Article satisfying the Article invariants (non-empty title, at least one
section) or a typed failure; when parsing is unrecoverable it fails with
the typed parse error rather than fabricating a placeholder Article. -/
theorem c1_generate_contract (svc : ServiceResult) (q : List Char)
    (ru : Option (List Char)) (a : Article) (text : List Char)
    (cites : List Source) (e : ParseError) (hq : q ≠ []) :
    (generate_article svc q ru = Except.ok a → articleInvariant a = true) ∧
    (svc = ServiceResult.ok text cites →
      parseStructuredResponse text = Except.error e →
      generate_article svc q ru = Except.error (GenError.parseFailure e)) := by
  constructor
  · intro h
    cases svc with
    | networkError => simp [generate_article] at h
    | timeout => simp [generate_article] at h
    | ok t c =>
      unfold generate_article at h
      simp only [] at h
      cases hp : parseStructuredResponse t with
      | error e2 => rw [hp] at h; simp at h
      | ok b =>
        rw [hp] at h
        simp only [] at h
        injection h with h2
        have hb := psr_ok_invariant t b hp
        rw [← h2]
        simpa [articleInvariant] using hb
  · intro hsvc hpe
    subst hsvc
    unfold generate_article
    simp only []
    rw [hpe]

/-- The Article `generate_article` produces from the demonstration
service response. -/
def demoGenerated : Article := { demoArticle with query := "ai".data }

/-- Witness for C1: a successful generation yields an invariant-satisfying
Article, and an unparseable response yields the typed parse error. -/
theorem c1_generate_contract_witness :
    articleInvariant demoGenerated = true ∧
    generate_article (ServiceResult.ok "oops".data []) "ai".data none =
      Except.error (GenError.parseFailure ParseError.noJsonObject) :=
  ⟨(c1_generate_contract (ServiceResult.ok demoJson []) "ai".data none
      demoGenerated demoJson [] ParseError.noJsonObject (by decide)).1 rfl,
   (c1_generate_contract (ServiceResult.ok "oops".data []) "ai".data none
      demoGenerated "oops".data [] ParseError.noJsonObject (by decide)).2
      rfl rfl⟩

/-! ## Claim C5: regeneration shape stability -/

/-- C5: when the modification instruction does not request a structural
change, every Article returned by `regenerate_article` has the same
number of sections and the same set of section headings as the input
Article (and, by construction, the same field set); content may differ. -/
theorem c5_regeneration_shape (svc : ServiceResult) (orig : Article)
    (instr : List Char) (b : Article)
    (h : regenerate_article svc orig instr false = Except.ok b) :
    b.sections.length = orig.sections.length ∧ sameHeadingSet orig b = true := by
  cases svc with
  | networkError => simp [regenerate_article] at h
  | timeout => simp [regenerate_article] at h
  | ok text cites =>
    unfold regenerate_article at h
    simp only [] at h
    cases hp : parseStructuredResponse text with
    | error e => rw [hp] at h; simp at h
    | ok a =>
      rw [hp] at h
      simp only [] at h
      simp only [Bool.false_or] at h
      cases hs : sameShape orig a with
      | false => rw [hs] at h; simp at h
      | true =>
        rw [hs] at h
        simp only [if_true] at h
        injection h with h2
        have hshape := hs
        unfold sameShape at hshape
        rw [Bool.and_eq_true, decide_eq_true_eq] at hshape
        obtain ⟨hlen, hset⟩ := hshape
        subst h2
        constructor
        · exact hlen.symm
        · exact hset

/-- Witness for C5: regenerating the demonstration Article with a
non-structural instruction preserves section count and heading set. -/
theorem c5_regeneration_shape_witness :
    demoArticle.sections.length = demoArticle.sections.length ∧
    sameHeadingSet demoArticle demoArticle = true :=
  c5_regeneration_shape (ServiceResult.ok demoJson []) demoArticle
    "fix a typo".data demoArticle rfl

/-! ## Truncation lemmas for claim C4 -/

theorem length_dropWhile_le (p : Char → Bool) (l : List Char) :
    (l.dropWhile p).length ≤ l.length := by
  induction l with
  | nil => simp
  | cons x xs ih =>
    rw [List.dropWhile_cons]
    split
    · exact Nat.le_succ_of_le ih
    · simp

theorem trimRight_length_le (cs : List Char) : (trimRight cs).length ≤ cs.length := by
  unfold trimRight
  rw [List.length_reverse]
  calc (cs.reverse.dropWhile isWsChar).length
      ≤ cs.reverse.length := length_dropWhile_le _ _
    _ = cs.length := List.length_reverse _

theorem truncateAtWord_length_le (n : Nat) (cs : List Char) :
    (truncateAtWord n cs).length ≤ n := by
  simp only [truncateAtWord]
  split
  · assumption
  · split
    · rw [List.length_take]
      exact min_le_left _ _
    · refine le_trans (trimRight_length_le _) ?_
      rw [List.length_reverse]
      refine le_trans (length_dropWhile_le _ _) ?_
      rw [List.length_reverse, List.length_take]
      exact min_le_left _ _

theorem truncateAtWord_ne_nil (n : Nat) (cs : List Char)
    (h : cs ≠ []) (hn : 0 < n) : truncateAtWord n cs ≠ [] := by
  simp only [truncateAtWord]
  split
  · exact h
  · next hlen =>
    split
    · intro hcon
      have hl := congrArg List.length hcon
      rw [List.length_take] at hl
      simp only [List.length_nil] at hl
      rcases Nat.min_eq_zero_iff.mp hl with h0 | h0 <;> omega
    · next hw => exact hw

/-- The deterministic fallback always satisfies the SEOMetadata
invariant when the Article invariants hold. -/
theorem seoFallback_valid (a : Article) (hinv : articleInvariant a = true) :
    seoValid (seoFallback a) = true := by
  unfold articleInvariant at hinv
  rw [Bool.and_eq_true, decide_eq_true_eq, decide_eq_true_eq] at hinv
  have htne : truncateAtWord 60 a.title ≠ [] :=
    truncateAtWord_ne_nil 60 a.title hinv.1 (by norm_num)
  unfold seoValid
  rw [Bool.and_eq_true, decide_eq_true_eq, decide_eq_true_eq]
  refine ⟨htne, ?_⟩
  rw [show (seoFallback a).description =
        (if descCandidate a = [] then truncateAtWord 60 a.title
         else descCandidate a) from rfl]
  split
  · exact htne
  · next hw => exact hw

/-! ## Claim C4: SEO Metadata Generator never fails outward -/

/-- C4: `generate_seo_metadata` always returns an SEOMetadata with
non-empty title and description; whenever the generative derivation path
fails (service failure or unparseable response) it returns the
deterministic fallback, whose title is Article.title truncated to at most
60 characters at a word boundary and whose description is the first
section's body stripped of markup and truncated to at most 160 characters
at a word boundary (populated from the title in the degenerate case where
that text is empty). -/
theorem c4_seo_fallback_guarantee (svc : ServiceResult) (a : Article)
    (text : List Char) (cites : List Source)
    (hinv : articleInvariant a = true) :
    seoValid (generate_seo_metadata svc a) = true ∧
    (generate_seo_metadata ServiceResult.networkError a = seoFallback a ∧
     generate_seo_metadata ServiceResult.timeout a = seoFallback a) ∧
    (parseSEOText text = none →
      generate_seo_metadata (ServiceResult.ok text cites) a = seoFallback a) ∧
    ((seoFallback a).title = truncateAtWord 60 a.title ∧
     (seoFallback a).title.length ≤ 60 ∧
     (seoFallback a).description.length ≤ 160 ∧
     (descCandidate a ≠ [] → (seoFallback a).description = descCandidate a)) := by
  have hfb := seoFallback_valid a hinv
  refine ⟨?_, ⟨rfl, rfl⟩, ?_, rfl, truncateAtWord_length_le 60 a.title, ?_, ?_⟩
  · cases svc with
    | networkError => exact hfb
    | timeout => exact hfb
    | ok t c =>
      simp only [generate_seo_metadata]
      cases hp : parseSEOText t with
      | none => simp only []; exact hfb
      | some m =>
        simp only []
        cases hv : seoValid m with
        | true => simp [hv]
        | false => simp [hv]; exact hfb
  · intro h
    simp only [generate_seo_metadata, h]
  · rw [show (seoFallback a).description =
          (if descCandidate a = [] then truncateAtWord 60 a.title
           else descCandidate a) from rfl]
    split
    · exact le_trans (truncateAtWord_length_le 60 a.title) (by norm_num)
    · exact truncateAtWord_length_le 160 _
  · intro hne
    rw [show (seoFallback a).description =
          (if descCandidate a = [] then truncateAtWord 60 a.title
           else descCandidate a) from rfl]
    rw [if_neg hne]

/-- Witness for C4 on the demonstration Article with an unparseable
generative response. -/
theorem c4_seo_fallback_guarantee_witness :
    seoValid (generate_seo_metadata (ServiceResult.ok "oops".data []) demoArticle)
      = true ∧
    generate_seo_metadata (ServiceResult.ok "oops".data []) demoArticle =
      seoFallback demoArticle ∧
    (seoFallback demoArticle).title = truncateAtWord 60 demoArticle.title ∧
    (seoFallback demoArticle).description = descCandidate demoArticle :=
  have h := c4_seo_fallback_guarantee (ServiceResult.ok "oops".data []) demoArticle
    "oops".data [] (by decide)
  ⟨h.1, h.2.2.1 rfl, h.2.2.2.1, h.2.2.2.2.2.2 (by decide)⟩

/-! ## Markdown-lite lemmas for claim C7 -/

theorem splitBB_no_star : ∀ cs : List Char, '*' ∉ cs → splitBB cs = [cs]
  | [], _ => by simp [splitBB]
  | [c], _ => by simp [splitBB]
  | c :: d :: rest, h => by
    have hc : ¬ c = '*' := fun hh => h (by simp [hh])
    have ih := splitBB_no_star (d :: rest) (fun hh => h (List.mem_cons_of_mem _ hh))
    simp only [splitBB]
    rw [if_neg (fun hh => hc hh.1), ih]

theorem splitBB_app_bb : ∀ u t : List Char, '*' ∉ u →
    splitBB (u ++ '*' :: '*' :: t) = u :: splitBB t
  | [], t, _ => by simp [splitBB]
  | c :: u', t, h => by
    have hc : ¬ c = '*' := fun hh => h (by simp [hh])
    have hu' : '*' ∉ u' := fun hh => h (List.mem_cons_of_mem _ hh)
    have ih := splitBB_app_bb u' t hu'
    cases u' with
    | nil => simp [splitBB, hc]
    | cons e u'' =>
      rw [List.cons_append] at ih
      simp [splitBB, hc, ih]

theorem boldTr_no_star (cs : List Char) (h : '*' ∉ cs) : boldTr cs = cs := by
  unfold boldTr
  rw [splitBB_no_star cs h]
  rfl

theorem boldTr_bold (u v w : List Char)
    (hu : '*' ∉ u) (hv : '*' ∉ v) (hw : '*' ∉ w) :
    boldTr (u ++ '*' :: '*' :: (v ++ '*' :: '*' :: w)) =
      u ++ "<strong>".data ++ v ++ "</strong>".data ++ w := by
  unfold boldTr
  rw [splitBB_app_bb u _ hu, splitBB_app_bb v _ hv, splitBB_no_star w hw]
  simp [joinBold, List.append_assoc]

theorem splitLines_no_newline : ∀ cs : List Char, '\n' ∉ cs → splitLines cs = [cs]
  | [], _ => by simp [splitLines]
  | c :: rest, h => by
    have hc : ¬ c = '\n' := fun hh => h (by simp [hh])
    have ih := splitLines_no_newline rest (fun hh => h (List.mem_cons_of_mem _ hh))
    simp only [splitLines]
    rw [if_neg hc, ih]

theorem splitLines_append_newline : ∀ l rest : List Char, '\n' ∉ l →
    splitLines (l ++ '\n' :: rest) = l :: splitLines rest
  | [], rest, _ => by simp [splitLines]
  | c :: l', rest, h => by
    have hc : ¬ c = '\n' := fun hh => h (by simp [hh])
    have ih := splitLines_append_newline l' rest (fun hh => h (List.mem_cons_of_mem _ hh))
    simp [splitLines, hc, ih]

theorem splitLines_joinSep : ∀ ls : List (List Char), ls ≠ [] →
    (∀ l ∈ ls, '\n' ∉ l) → splitLines (joinSep ['\n'] ls) = ls
  | [], h, _ => absurd rfl h
  | [l], _, hl => by
    simp only [joinSep]
    exact splitLines_no_newline l (hl l (by simp))
  | l :: l2 :: ls', _, hl => by
    have ih := splitLines_joinSep (l2 :: ls') (by simp)
      (fun x hx => hl x (List.mem_cons_of_mem _ hx))
    simp only [joinSep]
    rw [List.append_assoc, List.singleton_append,
        splitLines_append_newline l _ (hl l (by simp)), ih]

theorem takeWhile_all {α : Type} (p : α → Bool) :
    ∀ l : List α, (∀ x ∈ l, p x = true) → l.takeWhile p = l
  | [], _ => rfl
  | x :: xs, h => by
    rw [List.takeWhile_cons, h x (by simp), if_pos rfl,
        takeWhile_all p xs (fun y hy => h y (List.mem_cons_of_mem _ hy))]

theorem dropWhile_all {α : Type} (p : α → Bool) :
    ∀ l : List α, (∀ x ∈ l, p x = true) → l.dropWhile p = []
  | [], _ => rfl
  | x :: xs, h => by
    rw [List.dropWhile_cons, if_pos (h x (by simp)),
        dropWhile_all p xs (fun y hy => h y (List.mem_cons_of_mem _ hy))]

theorem renderBlocks_nil : ∀ f : Nat, renderBlocks f [] = []
  | 0 => rfl
  | _ + 1 => rfl

/-- A run of bullet lines renders as a single list block. -/
theorem renderBlocks_bullet_run (i : List Char) (is : List (List Char))
    (hall : ∀ x ∈ is, isBulletLine x = true) (n : Nat) :
    renderBlocks (n + 1) (('*' :: ' ' :: i) :: is) =
      "<ul>".data ++
        ((('*' :: ' ' :: i) :: is).map
          (fun b => "<li>".data ++ boldTr (b.drop 2) ++ "</li>".data)).flatten ++
      "</ul>".data := by
  simp only [renderBlocks]
  rw [if_neg (List.cons_ne_nil _ _),
      if_pos (show isBulletLine ('*' :: ' ' :: i) = true from rfl),
      takeWhile_all _ is hall, dropWhile_all _ is hall, renderBlocks_nil,
      List.append_nil]

/-- A run of non-empty non-bullet lines renders as a single paragraph
block. -/
theorem renderBlocks_para_run (l : List Char) (ls : List (List Char))
    (hl : l ≠ []) (hlb : isBulletLine l = false)
    (hall : ∀ x ∈ ls, (!isBulletLine x && !x.isEmpty) = true) (n : Nat) :
    renderBlocks (n + 1) (l :: ls) =
      "<p>".data ++ joinSep [' '] ((l :: ls).map boldTr) ++ "</p>".data := by
  simp only [renderBlocks]
  rw [if_neg hl, if_neg (by simp [hlb]),
      takeWhile_all _ ls hall, dropWhile_all _ ls hall, renderBlocks_nil,
      List.append_nil]

/-! ## Claim C7: markdown-lite transform -/

/-- C7: the markdown-lite transform of the HTML Renderer: a run of lines
beginning with a bullet marker becomes one list block; a run of non-bullet
lines becomes one paragraph block; `**text**` becomes emphasis markup; and
unsupported syntax such as `*not bold*` passes through unchanged as
literal text (the transform is a total function, so it never crashes). -/
theorem c7_markdown_lite :
    (∀ items : List (List Char), items ≠ [] →
      (∀ i ∈ items, '*' ∉ i ∧ '\n' ∉ i) →
      markdown_to_html (joinSep ['\n'] (items.map (fun i => '*' :: ' ' :: i))) =
        "<ul>".data ++
          (items.map (fun i => "<li>".data ++ i ++ "</li>".data)).flatten ++
        "</ul>".data) ∧
    (∀ ls : List (List Char), ls ≠ [] →
      (∀ l ∈ ls, l ≠ [] ∧ isBulletLine l = false ∧ '*' ∉ l ∧ '\n' ∉ l) →
      markdown_to_html (joinSep ['\n'] ls) =
        "<p>".data ++ joinSep [' '] ls ++ "</p>".data) ∧
    (∀ u v w : List Char, '*' ∉ u → '*' ∉ v → '*' ∉ w →
      '\n' ∉ u → '\n' ∉ v → '\n' ∉ w →
      isBulletLine (u ++ '*' :: '*' :: (v ++ '*' :: '*' :: w)) = false →
      markdown_to_html (u ++ '*' :: '*' :: (v ++ '*' :: '*' :: w)) =
        "<p>".data ++ u ++ "<strong>".data ++ v ++ "</strong>".data ++ w ++
          "</p>".data) ∧
    markdown_to_html "**bold** and *not bold*".data =
      "<p><strong>bold</strong> and *not bold*</p>".data := by
  refine ⟨?_, ?_, ?_, rfl⟩
  · rintro ⟨⟩ hne hprops
    · exact absurd rfl hne
    next i is =>
    have hnl : ∀ l ∈ (i :: is).map (fun x => '*' :: ' ' :: x), '\n' ∉ l := by
      intro l hl
      obtain ⟨y, hy, rfl⟩ := List.mem_map.mp hl
      intro hmem
      simp only [List.mem_cons] at hmem
      rcases hmem with h | h | h
      · exact absurd h (by decide)
      · exact absurd h (by decide)
      · exact (hprops y hy).2 h
    have hsplit := splitLines_joinSep ((i :: is).map (fun x => '*' :: ' ' :: x))
      (by simp) hnl
    unfold markdown_to_html
    rw [hsplit]
    simp only [List.map_cons, List.length_cons]
    have hmap : (('*' :: ' ' :: i) :: is.map (fun x => '*' :: ' ' :: x)).map
        (fun b => "<li>".data ++ boldTr (b.drop 2) ++ "</li>".data) =
        (i :: is).map (fun x => "<li>".data ++ x ++ "</li>".data) := by
      rw [List.map_cons, List.map_map, List.map_cons]
      congr 1
      · rw [show List.drop 2 ('*' :: ' ' :: i) = i from rfl,
            boldTr_no_star i (hprops i (by simp)).1]
      · apply List.map_congr_left
        intro x hx
        show "<li>".data ++ boldTr (List.drop 2 ('*' :: ' ' :: x)) ++ "</li>".data = _
        rw [show List.drop 2 ('*' :: ' ' :: x) = x from rfl,
            boldTr_no_star x (hprops x (List.mem_cons_of_mem _ hx)).1]
    rw [renderBlocks_bullet_run i (is.map (fun x => '*' :: ' ' :: x))
      (by
        intro x hx
        obtain ⟨y, _, rfl⟩ := List.mem_map.mp hx
        rfl) _, hmap]
    simp
  · rintro ⟨⟩ hne hprops
    · exact absurd rfl hne
    next l ls =>
    have hnl : ∀ x ∈ l :: ls, '\n' ∉ x := fun x hx => (hprops x hx).2.2.2
    have hsplit := splitLines_joinSep (l :: ls) (by simp) hnl
    unfold markdown_to_html
    rw [hsplit]
    simp only [List.length_cons]
    have hmap : (l :: ls).map boldTr = l :: ls := by
      rw [show (l :: ls).map boldTr = (l :: ls).map id from
            List.map_congr_left (fun x hx => boldTr_no_star x (hprops x hx).2.2.1),
          List.map_id]
    rw [renderBlocks_para_run l ls (hprops l (by simp)).1 (hprops l (by simp)).2.1
      (by
        intro x hx
        have hp := hprops x (List.mem_cons_of_mem _ hx)
        rw [hp.2.1, List.isEmpty_eq_false.mpr hp.1]
        rfl) _, hmap]
  · intro u v w hsu hsv hsw hnu hnv hnw hnb
    have hline : '\n' ∉ u ++ '*' :: '*' :: (v ++ '*' :: '*' :: w) := by
      intro hmem
      simp only [List.mem_append, List.mem_cons] at hmem
      rcases hmem with h | h | h | h | h | h | h
      · exact hnu h
      · exact absurd h (by decide)
      · exact absurd h (by decide)
      · exact hnv h
      · exact absurd h (by decide)
      · exact absurd h (by decide)
      · exact hnw h
    
    have hne : u ++ '*' :: '*' :: (v ++ '*' :: '*' :: w) ≠ [] := by
      cases u <;> simp
    unfold markdown_to_html
    rw [splitLines_no_newline _ hline]
    rw [show ([u ++ '*' :: '*' :: (v ++ '*' :: '*' :: w)] :
          List (List Char)).length = 0 + 1 from rfl]
    rw [renderBlocks_para_run _ [] hne hnb (by intro x hx; cases hx) 0]
    rw [List.map_cons, List.map_nil]
    rw [show joinSep [' '] [boldTr (u ++ '*' :: '*' :: (v ++ '*' :: '*' :: w))] =
          boldTr (u ++ '*' :: '*' :: (v ++ '*' :: '*' :: w)) from rfl]
    rw [boldTr_bold u v w hsu hsv hsw]
    simp [List.append_assoc]

/-- Witness for C7: a bullet list, a paragraph line, and a bold span on
concrete inputs. -/
theorem c7_markdown_lite_witness :
    markdown_to_html (joinSep ['\n'] ([['a'], ['b']].map (fun i => '*' :: ' ' :: i))) =
      "<ul>".data ++
        (([['a'], ['b']] : List (List Char)).map
          (fun i => "<li>".data ++ i ++ "</li>".data)).flatten ++
      "</ul>".data ∧
    markdown_to_html (joinSep ['\n'] [['h', 'i']]) =
      "<p>".data ++ joinSep [' '] [['h', 'i']] ++ "</p>".data ∧
    markdown_to_html (['x'] ++ '*' :: '*' :: (['b'] ++ '*' :: '*' :: ['y'])) =
      "<p>".data ++ ['x'] ++ "<strong>".data ++ ['b'] ++ "</strong>".data ++ ['y'] ++
        "</p>".data :=
  ⟨c7_markdown_lite.1 [['a'], ['b']] (by decide) (by decide),
   c7_markdown_lite.2.1 [['h', 'i']] (by decide) (by decide),
   c7_markdown_lite.2.2.1 ['x'] ['b'] ['y'] (by decide) (by decide) (by decide)
     (by decide) (by decide) (by decide) (by decide)⟩

end ArticleGen
